import Mathlib

/-!
Verification of the SLO gate decision engine (`.github/scripts/slo_gate_check.py`).

The script decides whether a hardware/software configuration ("SKU") may pass a
release gate, combining three signals: hard thresholds on critical metrics,
statistical drift of the current measurement against a rolling historical
median, and a consecutive-pass override.  This file gives a shallow embedding
of the engine: Python floats become exact rationals, JSON objects become
association lists (keys unique, insertion order preserved, as for Python
dicts), remote API calls become explicit inputs (`Option` models a failed
call), and the reason / report strings whose numeric formatting is irrelevant
to the claims are represented structurally, keeping verbatim every string
literal the code chooses between (in particular the unit labels).
-/

/-- One sample of metrics for a configuration: the `platform` label and the
`metrics` JSON object of the results file, as an association list from dotted
metric names to (rational) values. -/
structure MeasurementSet where
  platform : String
  metrics : List (String × ℚ)
deriving DecidableEq, Repr

/-- One entry of the local gate history file `.slo_gate_history.json`, as
written by `_record_gate_result`. -/
structure GateRunRecord where
  timestamp : String
  sku : String
  sha : String
  gate_passed : Bool
  metrics : List (String × ℚ)
deriving DecidableEq, Repr

/-- One workflow run as seen by `_check_consecutive_passes_github`: its name,
its conclusion string, whether the artifact-list request succeeded (HTTP 200),
and the names of its artifacts. -/
structure WorkflowRun where
  name : String
  conclusion : String
  artifacts_ok : Bool
  artifacts : List String
deriving DecidableEq, Repr

/-- One failure produced by `check_critical_metrics`.  The code builds f-strings;
we keep them structurally, carrying every datum the string interpolates,
including the literal unit label the code writes after the value and the
threshold (`µs` is hard-coded at line 206 of the script). -/
inductive CriticalFailure
  | missing (metric : String)
  | violation (metric : String) (value threshold : ℚ) (unit_label : String)
deriving DecidableEq, Repr

/-- One item of the `reasons` list built on the failing branch of
`should_pass_gate` (lines 362-367). -/
inductive FailItem
  | criticalFailed
  | driftAndStreak (violations : List (String × ℚ)) (count required : ℕ)
deriving DecidableEq, Repr

/-- The reason string of `should_pass_gate`, kept structurally: one constructor
per distinct f-string the code can assign to `gate_info['reason']`, carrying
the interpolated data. -/
inductive Reason
  | empty
  | criticalFailed (failures : List CriticalFailure)
  | passDrift (threshold_percent : ℚ)
  | passStreak (count : ℕ)
  | failGate (items : List FailItem)
deriving DecidableEq, Repr

/-- The `gate_info` dict initialized and filled by `should_pass_gate`. -/
structure GateInfo where
  critical_metrics_pass : Bool
  drift_check_pass : Bool
  consecutive_passes : ℕ
  gate_decision : Bool
  reason : Reason
deriving DecidableEq, Repr

/-- The `critical_metrics` threshold table set in `SloGateChecker.__init__`
(metric name, maximum allowed value), in source order. -/
def critical_metrics : List (String × ℚ) :=
  [ ( "scheduler.input_p99_ms", 2),
    ( "graphics.jitter_p99_ms", mkRat 3 10),
    ( "scheduler.compositor_cpu_ms", mkRat 3 2),
    ( "audio.jitter_p99_us", 200),
    ( "ipc.rtt_same_core_p99_us", 3),
    ( "cap.revoke_block_new_p99_us", 200),
    ( "memory.anon_page_fault_p99_us", 15),
    ( "memory.tlb_shootdown_p99_us", 40)]

/-- `self.drift_threshold_percent = 5.0`. -/
def drift_threshold_percent : ℚ := 5

/-- `self.consecutive_passes_required = 2`. -/
def consecutive_passes_required : ℕ := 2

/-- Prefix test on character lists (used to embed Python's `in` on strings). -/
def charsHasPre : List Char → List Char → Bool
  | [], _ => true
  | _ :: _, [] => false
  | a :: as, b :: bs => a == b && charsHasPre as bs

/-- Substring test on character lists: Python's `pat in s`. -/
def charsContains (pat : List Char) : List Char → Bool
  | [] => charsHasPre pat []
  | c :: rest => charsHasPre pat (c :: rest) || charsContains pat rest

/-- Python `pat in s` on strings. -/
def strContains (s pat : String) : Bool := charsContains pat.data s.data

/-- Character-wise lower-casing (Python `str.lower`, ASCII as used here). -/
def charsLower (cs : List Char) : List Char := cs.map Char.toLower

/-- Python `pat.lower() in s.lower()`. -/
def lowerContains (s pat : String) : Bool :=
  charsContains (charsLower pat.data) (charsLower s.data)

/-- Lexicographic order on character lists by code point, as Python compares
strings (ISO timestamps therefore compare chronologically). -/
def charsLe : List Char → List Char → Bool
  | [], _ => true
  | _ :: _, [] => false
  | a :: as, b :: bs => if a == b then charsLe as bs else decide (a < b)

/-- Suffix test on character lists. -/
def charsEndsWith (suf s : List Char) : Bool := charsHasPre suf.reverse s.reverse

/-- The failure-list loop of `check_critical_metrics` (lines 198-207): walk the
critical table in order; a missing metric appends a missing-metric failure, a
present value strictly above its threshold appends a violation failure whose
string names the metric, the value and the threshold, both suffixed with the
hard-coded unit label `µs`. -/
def critFailsAux (metrics : List (String × ℚ)) : List (String × ℚ) → List CriticalFailure
  | [] => []
  | mt :: rest =>
    match metrics.lookup mt.1 with
    | none => CriticalFailure.missing mt.1 :: critFailsAux metrics rest
    | some value =>
      if value > mt.2 then
        CriticalFailure.violation mt.1 value mt.2 "µs" :: critFailsAux metrics rest
      else critFailsAux metrics rest

/-- `SloGateChecker.check_critical_metrics`: returns
`(len(failures) == 0, failures)`. -/
def check_critical_metrics (results : MeasurementSet) : Bool × List CriticalFailure :=
  let failures := critFailsAux results.metrics critical_metrics
  (failures.isEmpty, failures)

/-- Values of one metric collected across the historical results, in history
order — the `historical_metrics[metric]` list built at lines 220-225. -/
def metricValues (historical_results : List MeasurementSet) (metric : String) : List ℚ :=
  historical_results.filterMap (fun result => result.metrics.lookup metric)

/-- `statistics.median`: sort, take the middle element for odd length, the mean
of the two middle elements for even length.  (Callers guard non-emptiness; on
`[]` this returns the junk value `0` where Python would raise.) -/
def median (xs : List ℚ) : ℚ :=
  let s := xs.insertionSort (fun a b => a ≤ b)
  let n := s.length
  if n % 2 = 1 then s.getD (n / 2) 0
  else (s.getD (n / 2 - 1) 0 + s.getD (n / 2) 0) / 2

/-- The per-metric loop of `calculate_drift` (lines 227-236): for each current
metric with a non-empty historical value list and a strictly positive median,
record `|current - median| / median * 100` as a violation when it exceeds the
drift threshold. -/
def driftViolationsAux (historical_results : List MeasurementSet) :
    List (String × ℚ) → List (String × ℚ)
  | [] => []
  | mv :: rest =>
    let hv := metricValues historical_results mv.1
    if hv.isEmpty then driftViolationsAux historical_results rest
    else
      let median_value := median hv
      if median_value > 0 then
        let drift_percent := |mv.2 - median_value| / median_value * 100
        if drift_percent > drift_threshold_percent then
          (mv.1, drift_percent) :: driftViolationsAux historical_results rest
        else driftViolationsAux historical_results rest
      else driftViolationsAux historical_results rest

/-- `SloGateChecker.calculate_drift`: empty history passes vacuously, otherwise
pass iff no drift violation was recorded. -/
def calculate_drift (current_results : MeasurementSet)
    (historical_results : List MeasurementSet) : Bool × List (String × ℚ) :=
  if historical_results.isEmpty then (true, [])
  else
    let drift_violations := driftViolationsAux historical_results current_results.metrics
    (drift_violations.isEmpty, drift_violations)

/-- `'slo' in run['name'].lower()` (line 272). -/
def run_is_slo (run : WorkflowRun) : Bool := lowerContains run.name "slo"

/-- `'slo-results' in artifact['name'].lower() and sku.lower() in artifact['name'].lower()`
(lines 283-284). -/
def has_slo_results (sku : String) (artifacts : List String) : Bool :=
  artifacts.any (fun nm => lowerContains nm "slo-results" && lowerContains nm sku)

/-- The counting loop of `_check_consecutive_passes_github` (lines 270-293):
runs not named as SLO runs are skipped; a successful, artifact-verified SLO run
increments the streak; any other related run (failed conclusion, artifact
request not 200, or no matching slo-results artifact) breaks the loop. -/
def slo_run_streak (sku : String) : List WorkflowRun → ℕ
  | [] => 0
  | run :: rest =>
    if run_is_slo run = false then slo_run_streak sku rest
    else if run.conclusion == "success" then
      if run.artifacts_ok then
        if has_slo_results sku run.artifacts then slo_run_streak sku rest + 1
        else 0
      else 0
    else 0

/-- `SloGateChecker._check_consecutive_passes_github`: the remote strategy.
`remote_runs = none` models the `except` branch (lines 297-299): any request
error yields a count of `0`. -/
def check_consecutive_passes_github (sku : String)
    (remote_runs : Option (List WorkflowRun)) : ℕ :=
  match remote_runs with
  | none => 0
  | some workflow_runs => slo_run_streak sku workflow_runs

/-- The counting loop of `_check_consecutive_passes_local` (lines 310-315):
increment while `gate_passed` holds, stop at the first failing record. -/
def pass_streak : List GateRunRecord → ℕ
  | [] => 0
  | run :: rest => if run.gate_passed then pass_streak rest + 1 else 0

/-- `SloGateChecker._check_consecutive_passes_local`: filter the history to this
SKU, sort newest-first by timestamp (Python's stable `sort` with
`reverse=True`), and count the passing streak from the newest record. -/
def check_consecutive_passes_local (sku : String)
    (local_history : List GateRunRecord) : ℕ :=
  let sku_runs := (local_history.filter (fun run => run.sku == sku)).insertionSort
    (fun a b => charsLe b.timestamp.data a.timestamp.data = true)
  pass_streak sku_runs

/-- `SloGateChecker.check_consecutive_passes` (lines 240-252): try the remote
strategy first; exactly when it reports `0` (including on request errors) fall
back to the local history.  The two counts are never combined. -/
def check_consecutive_passes (sku : String) (remote_runs : Option (List WorkflowRun))
    (local_history : List GateRunRecord) : Bool × ℕ :=
  let fromRemote := check_consecutive_passes_github sku remote_runs
  let consecutive_passes :=
    if fromRemote = 0 then check_consecutive_passes_local sku local_history
    else fromRemote
  (decide (consecutive_passes ≥ consecutive_passes_required), consecutive_passes)

/-- `SloGateChecker.should_pass_gate` (lines 323-371): the decision engine.
The historical results that `get_historical_results` would fetch, the remote
workflow runs, and the stored local history are explicit inputs; the critical
branch returns before any of them is consulted. -/
def should_pass_gate (results : MeasurementSet) (sku : String)
    (historical_results : List MeasurementSet)
    (remote_runs : Option (List WorkflowRun))
    (local_history : List GateRunRecord) : Bool × Reason × GateInfo :=
  let checked := check_critical_metrics results
  let critical_pass := checked.1
  let critical_failures := checked.2
  let gate_info : GateInfo :=
    { critical_metrics_pass := critical_pass, drift_check_pass := false,
      consecutive_passes := 0, gate_decision := false, reason := Reason.empty }
  if critical_pass = false then
    let reason := Reason.criticalFailed critical_failures
    (false, reason, { gate_info with gate_decision := false, reason := reason })
  else
    let drifted := calculate_drift results historical_results
    let drift_pass := drifted.1
    let drift_violations := drifted.2
    let gate_info := { gate_info with drift_check_pass := drift_pass }
    let counted := check_consecutive_passes sku remote_runs local_history
    let consecutive_count := counted.2
    let gate_info := { gate_info with consecutive_passes := consecutive_count }
    if critical_pass = true ∧
        (drift_pass = true ∨ consecutive_count ≥ consecutive_passes_required) then
      if drift_pass = true then
        let reason := Reason.passDrift drift_threshold_percent
        (true, reason, { gate_info with gate_decision := true, reason := reason })
      else
        let reason := Reason.passStreak consecutive_count
        (true, reason, { gate_info with gate_decision := true, reason := reason })
    else
      let items :=
        (if critical_pass = false then [ FailItem.criticalFailed] else []) ++
        (if drift_pass = false ∧ consecutive_count < consecutive_passes_required then
          [ FailItem.driftAndStreak drift_violations consecutive_count
              consecutive_passes_required]
        else [])
      let reason := Reason.failGate items
      (false, reason, { gate_info with gate_decision := false, reason := reason })

/-- `SloGateChecker._record_gate_result` (lines 99-118) acting on the loaded
history: append the new record, then keep only the last 50 runs. -/
def record_gate_result (history : List GateRunRecord) (new_result : GateRunRecord) :
    List GateRunRecord :=
  let runs := history ++ [ new_result]
  if runs.length > 50 then runs.drop (runs.length - 50) else runs

/-- The unit label `generate_report` attaches to a metric's value and threshold
(lines 402-428): chosen by substring tests on the metric name. -/
def metric_unit_label (metric : String) : String :=
  if strContains metric "_ms" then "ms"
  else if strContains metric "_us" then "µs"
  else if strContains metric "_w" then "W"
  else ""

/-- Modelled from the spec: the unit encoded in a metric key's suffix (`_ms`,
`_us`, `_w`, or unitless), which §3 requires every report of that metric's
values to preserve verbatim.  Stated here only to compare against the labels
the code actually emits. -/
def spec_suffix_unit (metric : String) : String :=
  if charsEndsWith ( "_ms").data metric.data then "ms"
  else if charsEndsWith ( "_us").data metric.data then "µs"
  else if charsEndsWith ( "_w").data metric.data then "W"
  else ""

/-- The PASS/FAIL marker of `generate_report`. -/
def pass_fail_mark (b : Bool) : String := if b then "✅ PASS" else "❌ FAIL"

/-- Line 385 of the script: the report's drift-check line. -/
def report_drift_line (gate_info : GateInfo) : String :=
  "- **Drift Check:** " ++ pass_fail_mark gate_info.drift_check_pass

/-- Line 386 of the script: the report's consecutive-passes line. -/
def report_streak_line (gate_info : GateInfo) : String :=
  "- **Consecutive Passes:** " ++ toString gate_info.consecutive_passes ++ "/" ++
    toString consecutive_passes_required

/-- The engine-and-record portion of `main` (lines 455-458): decide, then append
a `GateRunRecord` of this run's outcome to the store — on both decisions. -/
def run_gate (results : MeasurementSet) (sku sha now_ts : String)
    (historical_results : List MeasurementSet)
    (remote_runs : Option (List WorkflowRun))
    (store : List GateRunRecord) : Bool × Reason × GateInfo × List GateRunRecord :=
  let outcome := should_pass_gate results sku historical_results remote_runs store
  let new_store := record_gate_result store
    { timestamp := now_ts, sku := sku, sha := sha, gate_passed := outcome.1,
      metrics := results.metrics }
  (outcome.1, outcome.2.1, outcome.2.2, new_store)

/-- `main` (lines 435-487) as a function of its environment: `loaded = none`
models `load_slo_results` failing (missing, unreadable or invalid results
file), on which the process exits with code 1 before any decision; otherwise
the gate runs, the outcome is recorded, and the exit code is 0 exactly when
the decision is true.  `output_dest` is `args.output` (the report
destination); the returned triple is (exit code, gate info if a decision was
made, final history store). -/
def main_flow (loaded : Option MeasurementSet) (sku sha now_ts : String)
    (_output_dest : Option String)
    (historical_results : List MeasurementSet)
    (remote_runs : Option (List WorkflowRun))
    (store : List GateRunRecord) : ℕ × Option GateInfo × List GateRunRecord :=
  match loaded with
  | none => (1, none, store)
  | some results =>
    let outcome := run_gate results sku sha now_ts historical_results remote_runs store
    (if outcome.1 then 0 else 1, some outcome.2.2.1, outcome.2.2.2)

def exPassSet : MeasurementSet :=
  ⟨ "RaeenOS", [ ( "scheduler.input_p99_ms", 1),
    ( "graphics.jitter_p99_ms", mkRat 2 10),
    ( "scheduler.compositor_cpu_ms", 1),
    ( "audio.jitter_p99_us", 100),
    ( "ipc.rtt_same_core_p99_us", 2),
    ( "cap.revoke_block_new_p99_us", 100),
    ( "memory.anon_page_fault_p99_us", 10),
    ( "memory.tlb_shootdown_p99_us", 30)]⟩

def exViolSet : MeasurementSet :=
  ⟨ "RaeenOS", [ ( "scheduler.input_p99_ms", mkRat 5 2),
    ( "graphics.jitter_p99_ms", mkRat 2 10),
    ( "scheduler.compositor_cpu_ms", 1),
    ( "audio.jitter_p99_us", 100),
    ( "ipc.rtt_same_core_p99_us", 2),
    ( "cap.revoke_block_new_p99_us", 100),
    ( "memory.anon_page_fault_p99_us", 10),
    ( "memory.tlb_shootdown_p99_us", 30)]⟩

def driftSample (v : ℚ) : MeasurementSet := ⟨ "RaeenOS", [ ( "m", v)]⟩

def exDriftHist : List MeasurementSet := [ driftSample 10, driftSample 12, driftSample 14]

def exLocalRun (ts sha : String) (ok : Bool) : GateRunRecord :=
  ⟨ ts, "default", sha, ok, []⟩

/-- Local history holding, newest first, the outcomes pass, pass, fail, pass. -/
def exPPFP : List GateRunRecord :=
  [ exLocalRun "2025-01-04T00:00:00Z" "s4" true,
    exLocalRun "2025-01-03T00:00:00Z" "s3" true,
    exLocalRun "2025-01-02T00:00:00Z" "s2" false,
    exLocalRun "2025-01-01T00:00:00Z" "s1" true]

def exSloRun (conclusion : String) : WorkflowRun :=
  ⟨ "SLO Gate", conclusion, true, [ "slo-results-default"]⟩

/-- Remote runs holding, newest first, the conclusions success, success,
failure, success, each with verifiable slo-results artifacts. -/
def exRunsPPFP : List WorkflowRun :=
  [ exSloRun "success", exSloRun "success", exSloRun "failure", exSloRun "success"]

/-! Helper lemmas and claim theorems. -/

theorem critFailsAux_eq (ms : List (String × ℚ)) (table : List (String × ℚ)) :
    critFailsAux ms table = table.filterMap (fun mt =>
      match List.lookup mt.1 ms with
      | none => some (CriticalFailure.missing mt.1)
      | some v => if v > mt.2 then some (CriticalFailure.violation mt.1 v mt.2 "µs")
                  else none) := by
  induction table with
  | nil => rfl
  | cons mt rest ih =>
    simp only [ critFailsAux, List.filterMap_cons]
    cases h : List.lookup mt.1 ms with
    | none => simp [ h, ih]
    | some v =>
      by_cases hv : v > mt.2
      · simp [ h, hv, ih]
      · simp [ h, hv, ih]

theorem critFailsAux_nil_iff (ms : List (String × ℚ)) (table : List (String × ℚ)) :
    critFailsAux ms table = [] ↔
      ∀ mt ∈ table, ∃ v, List.lookup mt.1 ms = some v ∧ v ≤ mt.2 := by
  induction table with
  | nil => simp [ critFailsAux]
  | cons mt rest ih =>
    simp only [ critFailsAux]
    cases h : List.lookup mt.1 ms with
    | none =>
      constructor
      · intro hx; cases hx
      · intro hall
        rcases hall mt (List.mem_cons_self mt rest) with ⟨v, hv, _⟩
        rw [ h] at hv; cases hv
    | some v =>
      dsimp only
      by_cases hv : v > mt.2
      · rw [ if_pos hv]
        constructor
        · intro hx; cases hx
        · intro hall
          rcases hall mt (List.mem_cons_self mt rest) with ⟨w, hw, hle⟩
          rw [ h] at hw
          injection hw with hw
          subst hw
          exact absurd hv (not_lt.mpr hle)
      · rw [ if_neg hv, ih]
        constructor
        · intro hall mt' hmt'
          rcases List.mem_cons.mp hmt' with heq | hmem
          · subst heq; exact ⟨v, h, not_lt.mp hv⟩
          · exact hall mt' hmem
        · intro hall mt' hmt'
          exact hall mt' (List.mem_cons_of_mem _ hmt')

/-- C3: the threshold check walks the critical table in order, appending a
missing-metric failure for each absent critical metric and a violation failure
(naming the metric, its value and the threshold) for each present value
strictly above its threshold; it passes iff the failure list is empty, so
all-compliant current values give `true` and any strict exceedance gives
`false` with that metric named in the failures. -/
theorem C3_threshold_check (results : MeasurementSet) :
    ((check_critical_metrics results).2 = critical_metrics.filterMap (fun mt =>
      match List.lookup mt.1 results.metrics with
      | none => some (CriticalFailure.missing mt.1)
      | some v => if v > mt.2 then some (CriticalFailure.violation mt.1 v mt.2 "µs")
                  else none))
  ∧ ((check_critical_metrics results).1 = true ↔ (check_critical_metrics results).2 = [])
  ∧ ((∀ mt ∈ critical_metrics, ∃ v, List.lookup mt.1 results.metrics = some v ∧ v ≤ mt.2) →
      (check_critical_metrics results).1 = true)
  ∧ (∀ m t v, (m, t) ∈ critical_metrics → List.lookup m results.metrics = some v → v > t →
      (check_critical_metrics results).1 = false ∧
        CriticalFailure.violation m v t "µs" ∈ (check_critical_metrics results).2)
  ∧ (∀ m t, (m, t) ∈ critical_metrics → List.lookup m results.metrics = none →
      (check_critical_metrics results).1 = false ∧
        CriticalFailure.missing m ∈ (check_critical_metrics results).2) := by
  refine ⟨?_, ?_, ?_, ?_, ?_⟩
  · exact critFailsAux_eq results.metrics critical_metrics
  · simp [ check_critical_metrics, List.isEmpty_iff]
  · intro hall
    simp [ check_critical_metrics, List.isEmpty_iff,
      (critFailsAux_nil_iff results.metrics critical_metrics).mpr hall]
  · intro m t v hmem hlook hgt
    have hin : CriticalFailure.violation m v t "µs" ∈ critFailsAux results.metrics critical_metrics := by
      rw [ critFailsAux_eq]
      refine List.mem_filterMap.mpr ⟨(m, t), hmem, ?_⟩
      simp [ hlook, hgt]
    constructor
    · simp only [ check_critical_metrics]
      rcases hne : critFailsAux results.metrics critical_metrics with _ | ⟨a, l⟩
      · rw [ hne] at hin; cases hin
      · simp
    · exact hin
  · intro m t hmem hlook
    have hin : CriticalFailure.missing m ∈ critFailsAux results.metrics critical_metrics := by
      rw [ critFailsAux_eq]
      refine List.mem_filterMap.mpr ⟨(m, t), hmem, ?_⟩
      simp [ hlook]
    constructor
    · simp only [ check_critical_metrics]
      rcases hne : critFailsAux results.metrics critical_metrics with _ | ⟨a, l⟩
      · rw [ hne] at hin; cases hin
      · simp
    · exact hin

theorem C3_witness :
    (check_critical_metrics exViolSet).1 = false ∧
      CriticalFailure.violation "scheduler.input_p99_ms" (mkRat 5 2) 2 "µs"
        ∈ (check_critical_metrics exViolSet).2 :=
  (C3_threshold_check exViolSet).2.2.2.1 "scheduler.input_p99_ms" 2 (mkRat 5 2)
    (by decide) (by decide) (by decide)

theorem cm_fail_of_exists (results : MeasurementSet)
    (h : ∃ mt ∈ critical_metrics, List.lookup mt.1 results.metrics = none ∨
          ∃ v, List.lookup mt.1 results.metrics = some v ∧ v > mt.2) :
    (check_critical_metrics results).1 = false := by
  rcases h with ⟨mt, hmem, hcase⟩
  simp only [ check_critical_metrics]
  have hne : critFailsAux results.metrics critical_metrics ≠ [] := by
    intro hnil
    rcases (critFailsAux_nil_iff results.metrics critical_metrics).mp hnil mt hmem
      with ⟨v, hv, hle⟩
    rcases hcase with hnone | ⟨w, hw, hgt⟩
    · rw [ hnone] at hv; cases hv
    · rw [ hw] at hv; injection hv with hv; subst hv
      exact absurd hgt (not_lt.mpr hle)
  rcases hx : critFailsAux results.metrics critical_metrics with _ | ⟨a, l⟩
  · exact absurd hx hne
  · simp

/-- C2: when some critical metric is missing or strictly exceeds its threshold,
the gate decision is false for every possible historical input — the reason
enumerates the whole critical failure list and the result does not depend on
the fetched history, the remote runs, or the local store (so none of those
checks is consulted): the gate info keeps its initialized drift and streak
fields. -/
theorem C2_critical_short_circuit (results : MeasurementSet) (sku : String)
    (h : ∃ mt ∈ critical_metrics, List.lookup mt.1 results.metrics = none ∨
          ∃ v, List.lookup mt.1 results.metrics = some v ∧ v > mt.2) :
    ∀ (hist : List MeasurementSet) (remote_runs : Option (List WorkflowRun))
      (local_history : List GateRunRecord),
      should_pass_gate results sku hist remote_runs local_history =
        (false, Reason.criticalFailed (check_critical_metrics results).2,
          { critical_metrics_pass := false, drift_check_pass := false,
            consecutive_passes := 0, gate_decision := false,
            reason := Reason.criticalFailed (check_critical_metrics results).2 }) := by
  intro hist remote_runs local_history
  have hcp := cm_fail_of_exists results h
  simp [ should_pass_gate, hcp]

theorem C2_witness :
    should_pass_gate exViolSet "lt-sku" [ exPassSet] none [] =
      (false, Reason.criticalFailed (check_critical_metrics exViolSet).2,
        { critical_metrics_pass := false, drift_check_pass := false,
          consecutive_passes := 0, gate_decision := false,
          reason := Reason.criticalFailed (check_critical_metrics exViolSet).2 }) :=
  C2_critical_short_circuit exViolSet "lt-sku"
    ⟨( "scheduler.input_p99_ms", 2), by decide, Or.inr ⟨mkRat 5 2, by decide, by decide⟩⟩
    [ exPassSet] none []

/-- C10: whenever any critical metric fails, the returned gate info reports
`drift_check_pass = false` and `consecutive_passes = 0` — the initialized
defaults, since neither check runs on that path — so the rendered report marks
the drift check FAIL and shows a consecutive-pass count of 0/2 regardless of
the actual historical state. -/
theorem C10_defaults_on_critical_fail (results : MeasurementSet) (sku : String)
    (hist : List MeasurementSet) (remote_runs : Option (List WorkflowRun))
    (local_history : List GateRunRecord)
    (h : (check_critical_metrics results).1 = false) :
    (should_pass_gate results sku hist remote_runs local_history).2.2.drift_check_pass = false ∧
    (should_pass_gate results sku hist remote_runs local_history).2.2.consecutive_passes = 0 ∧
    report_drift_line (should_pass_gate results sku hist remote_runs local_history).2.2 =
      "- **Drift Check:** ❌ FAIL" ∧
    report_streak_line (should_pass_gate results sku hist remote_runs local_history).2.2 =
      "- **Consecutive Passes:** 0/2" := by
  refine ⟨?_, ?_, ?_, ?_⟩
  · simp [ should_pass_gate, h]
  · simp [ should_pass_gate, h]
  · simp [ should_pass_gate, h, report_drift_line, pass_fail_mark]
  · have h0 : (should_pass_gate results sku hist remote_runs local_history).2.2.consecutive_passes
        = 0 := by simp [ should_pass_gate, h]
    rw [ report_streak_line, h0]
    decide

theorem C10_witness :
    (should_pass_gate exViolSet "lt-sku" [ exPassSet] none []).2.2.drift_check_pass = false ∧
    (should_pass_gate exViolSet "lt-sku" [ exPassSet] none []).2.2.consecutive_passes = 0 ∧
    report_drift_line (should_pass_gate exViolSet "lt-sku" [ exPassSet] none []).2.2 =
      "- **Drift Check:** ❌ FAIL" ∧
    report_streak_line (should_pass_gate exViolSet "lt-sku" [ exPassSet] none []).2.2 =
      "- **Consecutive Passes:** 0/2" :=
  C10_defaults_on_critical_fail exViolSet "lt-sku" [ exPassSet] none [] (by decide)

/-- C1: with all critical metrics passing, the decision follows the strict
order of the engine: a passing drift check decides true with the
drift-within-threshold reason; otherwise the decision is true exactly when the
consecutive-pass count reaches the required threshold (2), with the
N-consecutive-passes override reason; otherwise the decision is false and the
reason carries each drifting metric with its drift percentage together with
the current count and the required threshold (from which the remaining passes
needed are `required - count`). -/
theorem C1_gate_decision_order (results : MeasurementSet) (sku : String)
    (hist : List MeasurementSet) (remote_runs : Option (List WorkflowRun))
    (local_history : List GateRunRecord)
    (hcrit : (check_critical_metrics results).1 = true) :
    ((calculate_drift results hist).1 = true →
      should_pass_gate results sku hist remote_runs local_history =
        (true, Reason.passDrift drift_threshold_percent,
          { critical_metrics_pass := true, drift_check_pass := true,
            consecutive_passes := (check_consecutive_passes sku remote_runs local_history).2,
            gate_decision := true, reason := Reason.passDrift drift_threshold_percent })) ∧
    ((calculate_drift results hist).1 = false →
      (((should_pass_gate results sku hist remote_runs local_history).1 = true ↔
          consecutive_passes_required ≤
            (check_consecutive_passes sku remote_runs local_history).2) ∧
        (consecutive_passes_required ≤
            (check_consecutive_passes sku remote_runs local_history).2 →
          should_pass_gate results sku hist remote_runs local_history =
            (true, Reason.passStreak (check_consecutive_passes sku remote_runs local_history).2,
              { critical_metrics_pass := true, drift_check_pass := false,
                consecutive_passes := (check_consecutive_passes sku remote_runs local_history).2,
                gate_decision := true,
                reason := Reason.passStreak
                  (check_consecutive_passes sku remote_runs local_history).2 })) ∧
        ((check_consecutive_passes sku remote_runs local_history).2 <
            consecutive_passes_required →
          should_pass_gate results sku hist remote_runs local_history =
            (false,
              Reason.failGate [ FailItem.driftAndStreak (calculate_drift results hist).2
                (check_consecutive_passes sku remote_runs local_history).2
                consecutive_passes_required],
              { critical_metrics_pass := true, drift_check_pass := false,
                consecutive_passes := (check_consecutive_passes sku remote_runs local_history).2,
                gate_decision := false,
                reason := Reason.failGate [ FailItem.driftAndStreak (calculate_drift results hist).2
                  (check_consecutive_passes sku remote_runs local_history).2
                  consecutive_passes_required] })))) := by
  constructor
  · intro hd
    simp [ should_pass_gate, hcrit, hd]
  · intro hd
    by_cases hc : consecutive_passes_required ≤
        (check_consecutive_passes sku remote_runs local_history).2
    · refine ⟨?_, fun _ => ?_, fun hlt => absurd hc (not_le.mpr hlt)⟩
      · simp [ should_pass_gate, hcrit, hd, hc]
      · simp [ should_pass_gate, hcrit, hd, hc]
    · have hlt := not_le.mp hc
      refine ⟨?_, fun hge => absurd hge hc, fun _ => ?_⟩
      · simp [ should_pass_gate, hcrit, hd, hc, not_le.mp hc]
      · simp [ should_pass_gate, hcrit, hd, hc, hlt, not_le.mp hc]

theorem C1_witness :
    should_pass_gate exPassSet "lt-sku" [] none [] =
      (true, Reason.passDrift drift_threshold_percent,
        { critical_metrics_pass := true, drift_check_pass := true,
          consecutive_passes := (check_consecutive_passes "lt-sku" none []).2,
          gate_decision := true, reason := Reason.passDrift drift_threshold_percent }) :=
  (C1_gate_decision_order exPassSet "lt-sku" [] none [] (by decide)).1 (by decide)

theorem driftViolationsAux_eq (hist : List MeasurementSet) (ms : List (String × ℚ)) :
    driftViolationsAux hist ms = ms.filterMap (fun mv =>
      if metricValues hist mv.1 ≠ [] ∧ 0 < median (metricValues hist mv.1) ∧
          drift_threshold_percent <
            |mv.2 - median (metricValues hist mv.1)| / median (metricValues hist mv.1) * 100 then
        some (mv.1, |mv.2 - median (metricValues hist mv.1)| / median (metricValues hist mv.1) * 100)
      else none) := by
  induction ms with
  | nil => rfl
  | cons mv rest ih =>
    simp only [ driftViolationsAux, List.filterMap_cons]
    by_cases h1 : (metricValues hist mv.1).isEmpty
    · have h1' : metricValues hist mv.1 = [] := by
        simpa [ List.isEmpty_iff] using h1
      simp [ h1, h1', ih]
    · have h1' : metricValues hist mv.1 ≠ [] := by
        simpa [ List.isEmpty_iff] using h1
      by_cases h2 : median (metricValues hist mv.1) > 0
      · by_cases h3 : |mv.2 - median (metricValues hist mv.1)| /
            median (metricValues hist mv.1) * 100 > drift_threshold_percent
        · simp [ h1, h1', h2, h3, ih]
        · simp [ h1, h1', h2, h3, ih]
      · simp [ h1, h1', h2, ih]

/-- C4: the drift analysis passes vacuously on empty history; on non-empty
history a current metric is recorded as a violation, with drift
`|current - median| / median * 100`, exactly when its historical values are
non-empty, their conventional median is strictly positive, and the drift
exceeds the 5% threshold (zero/negative medians and history-absent metrics are
skipped); the check passes iff no violation is recorded.  Concretely, against
historical values `[10, 12, 14]` (median 12) a current value of 12.7 is a
violation at drift 35/6 ≈ 5.83%, while 12.5 (drift 25/6 ≈ 4.17%) is not. -/
theorem C4_drift_analysis (current : MeasurementSet) (history : List MeasurementSet)
    (hne : history ≠ []) :
    (calculate_drift current [] = (true, [])) ∧
    ((calculate_drift current history).2 = current.metrics.filterMap (fun mv =>
      if metricValues history mv.1 ≠ [] ∧ 0 < median (metricValues history mv.1) ∧
          drift_threshold_percent <
            |mv.2 - median (metricValues history mv.1)| /
              median (metricValues history mv.1) * 100 then
        some (mv.1, |mv.2 - median (metricValues history mv.1)| /
          median (metricValues history mv.1) * 100)
      else none)) ∧
    ((calculate_drift current history).1 = true ↔ (calculate_drift current history).2 = []) ∧
    (median [ (10:ℚ), 12, 14] = 12) ∧
    (calculate_drift ⟨ "RaeenOS", [ ( "m", mkRat 127 10)]⟩ exDriftHist =
      (false, [ ( "m", mkRat 35 6)])) ∧
    (mkRat 35 6 > drift_threshold_percent) ∧
    (calculate_drift ⟨ "RaeenOS", [ ( "m", mkRat 25 2)]⟩ exDriftHist = (true, [])) := by
  have hne' : history.isEmpty = false := by
    rcases history with _ | ⟨a, l⟩
    · exact absurd rfl hne
    · rfl
  refine ⟨by simp [ calculate_drift], ?_, ?_, by decide, ?_, by decide, ?_⟩
  · simp [ calculate_drift, hne', driftViolationsAux_eq]
  · simp [ calculate_drift, hne', List.isEmpty_iff]
  · norm_num [ calculate_drift, driftViolationsAux, metricValues, exDriftHist, driftSample,
      median, drift_threshold_percent, List.lookup, List.insertionSort, List.orderedInsert,
      abs_of_nonneg]
  · norm_num [ calculate_drift, driftViolationsAux, metricValues, exDriftHist, driftSample,
      median, drift_threshold_percent, List.lookup, List.insertionSort, List.orderedInsert,
      abs_of_nonneg]

theorem C4_witness :
    ((calculate_drift ⟨ "RaeenOS", [ ( "m", mkRat 127 10)]⟩ exDriftHist).1 = true ↔
      (calculate_drift ⟨ "RaeenOS", [ ( "m", mkRat 127 10)]⟩ exDriftHist).2 = []) ∧
    calculate_drift ⟨ "RaeenOS", [ ( "m", mkRat 127 10)]⟩ exDriftHist =
      (false, [ ( "m", mkRat 35 6)]) :=
  ⟨(C4_drift_analysis ⟨ "RaeenOS", [ ( "m", mkRat 127 10)]⟩ exDriftHist (by decide)).2.2.1,
    (C4_drift_analysis ⟨ "RaeenOS", [ ( "m", mkRat 127 10)]⟩ exDriftHist (by decide)).2.2.2.2.1⟩

theorem pass_streak_takeWhile (l : List GateRunRecord) :
    pass_streak l = (l.takeWhile (fun run => run.gate_passed)).length := by
  induction l with
  | nil => rfl
  | cons r rest ih =>
    by_cases h : r.gate_passed <;> simp [ pass_streak, List.takeWhile_cons, h, ih]

/-- C5: the consecutive-pass count equals the remote strategy's count whenever
that count is nonzero, and falls back to the local store count — records
filtered to the configuration id, sorted newest-first by timestamp, counting
the unbroken passing streak — exactly when the remote strategy yields zero,
which includes every errored remote call; the two counts are never merged or
summed. -/
theorem C5_streak_fallback (sku : String) (remote_runs : Option (List WorkflowRun))
    (local_history : List GateRunRecord) :
    ((check_consecutive_passes sku remote_runs local_history).2 =
      if check_consecutive_passes_github sku remote_runs = 0 then
        check_consecutive_passes_local sku local_history
      else check_consecutive_passes_github sku remote_runs) ∧
    (check_consecutive_passes_github sku remote_runs ≠ 0 →
      (check_consecutive_passes sku remote_runs local_history).2 =
        check_consecutive_passes_github sku remote_runs) ∧
    (check_consecutive_passes_github sku none = 0) ∧
    (remote_runs = none →
      (check_consecutive_passes sku remote_runs local_history).2 =
        check_consecutive_passes_local sku local_history) ∧
    (check_consecutive_passes_local sku local_history =
      (((local_history.filter (fun run => run.sku == sku)).insertionSort
          (fun a b => charsLe b.timestamp.data a.timestamp.data = true)).takeWhile
        (fun run => run.gate_passed)).length) := by
  refine ⟨rfl, ?_, rfl, ?_, ?_⟩
  · intro h
    simp [ check_consecutive_passes, h]
  · intro h
    subst h
    simp [ check_consecutive_passes, check_consecutive_passes_github]
  · simp [ check_consecutive_passes_local, pass_streak_takeWhile]

theorem C5_witness :
    ((check_consecutive_passes "default" none exPPFP).2 =
      check_consecutive_passes_local "default" exPPFP) ∧
    (check_consecutive_passes_local "default" exPPFP =
      (((exPPFP.filter (fun run => run.sku == "default")).insertionSort
          (fun a b => charsLe b.timestamp.data a.timestamp.data = true)).takeWhile
        (fun run => run.gate_passed)).length) :=
  ⟨(C5_streak_fallback "default" none exPPFP).2.2.2.1 rfl,
    (C5_streak_fallback "default" none exPPFP).2.2.2.2⟩

/-- C6: both consecutive-pass walks count only an unbroken prefix of passing
runs and stop at the first non-passing or unverifiable related run rather
than skipping it: the local walk equals the length of the passing
`takeWhile`-prefix, the remote walk skips unrelated runs, adds one for a
successful run with verifiable SLO artifacts, and returns 0 at any other
related run whatever follows; a pass, pass, fail, pass list (newest first)
therefore counts exactly 2 on both strategies. -/
theorem C6_streak_stops (sku : String) (run : WorkflowRun) (rest : List WorkflowRun)
    (l : List GateRunRecord) (r : GateRunRecord) (lrest : List GateRunRecord) :
    (pass_streak l = (l.takeWhile (fun x => x.gate_passed)).length) ∧
    (r.gate_passed = false → pass_streak (r :: lrest) = 0) ∧
    (r.gate_passed = true → pass_streak (r :: lrest) = pass_streak lrest + 1) ∧
    (run_is_slo run = false → slo_run_streak sku (run :: rest) = slo_run_streak sku rest) ∧
    (run_is_slo run = true → (run.conclusion == "success") = false →
      slo_run_streak sku (run :: rest) = 0) ∧
    (run_is_slo run = true → (run.conclusion == "success") = true →
      run.artifacts_ok = false → slo_run_streak sku (run :: rest) = 0) ∧
    (run_is_slo run = true → (run.conclusion == "success") = true →
      run.artifacts_ok = true → has_slo_results sku run.artifacts = false →
      slo_run_streak sku (run :: rest) = 0) ∧
    (run_is_slo run = true → (run.conclusion == "success") = true →
      run.artifacts_ok = true → has_slo_results sku run.artifacts = true →
      slo_run_streak sku (run :: rest) = slo_run_streak sku rest + 1) ∧
    (check_consecutive_passes_local "default" exPPFP = 2) ∧
    (slo_run_streak "default" exRunsPPFP = 2) := by
  refine ⟨pass_streak_takeWhile l, ?_, ?_, ?_, ?_, ?_, ?_, ?_, by decide, by decide⟩
  · intro h; simp [ pass_streak, h]
  · intro h; simp [ pass_streak, h]
  · intro h; simp [ slo_run_streak, h]
  · intro h1 h2; simp [ slo_run_streak, h1, h2]
  · intro h1 h2 h3; simp [ slo_run_streak, h1, h2, h3]
  · intro h1 h2 h3 h4; simp [ slo_run_streak, h1, h2, h3, h4]
  · intro h1 h2 h3 h4; simp [ slo_run_streak, h1, h2, h3, h4]

theorem C6_witness :
    slo_run_streak "default" (exSloRun "failure" :: [ exSloRun "success"]) = 0 ∧
    check_consecutive_passes_local "default" exPPFP = 2 ∧
    slo_run_streak "default" exRunsPPFP = 2 := by
  have h := C6_streak_stops "default" (exSloRun "failure") [ exSloRun "success"]
    exPPFP (exLocalRun "2025-01-04T00:00:00Z" "s4" true) []
  exact ⟨h.2.2.2.2.1 (by decide) (by decide), h.2.2.2.2.2.2.2.2.1, h.2.2.2.2.2.2.2.2.2⟩

theorem record_gate_result_drop (store : List GateRunRecord) (rec : GateRunRecord) :
    record_gate_result store rec = (store ++ [ rec]).drop (store.length + 1 - 50) := by
  unfold record_gate_result
  by_cases h : (store ++ [ rec]).length > 50
  · rw [ if_pos h]
    congr 1
    simp
  · rw [ if_neg h]
    simp only [ List.length_append, List.length_cons, List.length_nil] at h
    have h0 : store.length + 1 - 50 = 0 := by omega
    rw [ h0, List.drop_zero]

/-- C7: each completed invocation appends exactly one gate-run record to the
store — on passing and failing decisions alike — and the store then holds at
most the 50 most recent records over all configurations, the oldest evicted
first once a 51st would be retained. -/
theorem C7_history_cap (store : List GateRunRecord) (rec : GateRunRecord)
    (results : MeasurementSet) (sku sha now_ts : String)
    (hist : List MeasurementSet) (remote_runs : Option (List WorkflowRun))
    (hlen : store.length ≤ 50) :
    ((run_gate results sku sha now_ts hist remote_runs store).2.2.2 =
      record_gate_result store
        { timestamp := now_ts, sku := sku, sha := sha,
          gate_passed := (run_gate results sku sha now_ts hist remote_runs store).1,
          metrics := results.metrics }) ∧
    (record_gate_result store rec = (store ++ [ rec]).drop (store.length + 1 - 50)) ∧
    ((record_gate_result store rec).length = min (store.length + 1) 50) ∧
    (record_gate_result store rec = store.drop (store.length + 1 - 50) ++ [ rec]) ∧
    (store.length = 50 → record_gate_result store rec = store.tail ++ [ rec]) := by
  have hdrop := record_gate_result_drop store rec
  have hle : store.length + 1 - 50 ≤ store.length := by omega
  have hsplit : record_gate_result store rec = store.drop (store.length + 1 - 50) ++ [ rec] := by
    rw [ hdrop, List.drop_append_eq_append_drop]
    have h0 : store.length + 1 - 50 - store.length = 0 := by omega
    rw [ h0, List.drop_zero]
  refine ⟨rfl, hdrop, ?_, hsplit, ?_⟩
  · rw [ hdrop, List.length_drop]
    simp only [ List.length_append, List.length_cons, List.length_nil]
    omega
  · intro h50
    rw [ hsplit, h50]
    norm_num

theorem C7_witness :
    ((run_gate exPassSet "default" "sha1" "2025-01-05T00:00:00Z" [] none exPPFP).2.2.2 =
      record_gate_result exPPFP
        { timestamp := "2025-01-05T00:00:00Z", sku := "default", sha := "sha1",
          gate_passed :=
            (run_gate exPassSet "default" "sha1" "2025-01-05T00:00:00Z" [] none exPPFP).1,
          metrics := exPassSet.metrics }) ∧
    (record_gate_result exPPFP (exLocalRun "2025-01-05T00:00:00Z" "s5" true)).length =
      min (exPPFP.length + 1) 50 :=
  ⟨(C7_history_cap exPPFP (exLocalRun "2025-01-05T00:00:00Z" "s5" true) exPassSet "default"
      "sha1" "2025-01-05T00:00:00Z" [] none (by decide)).1,
    (C7_history_cap exPPFP (exLocalRun "2025-01-05T00:00:00Z" "s5" true) exPassSet "default"
      "sha1" "2025-01-05T00:00:00Z" [] none (by decide)).2.2.1⟩

/-- C8: the process exits 0 exactly when the gate decision is true and 1 when
it is false, independently of the report destination; a missing, unreadable or
invalid current results file exits 1 immediately, with no decision made and
the run-history store untouched. -/
theorem C8_exit_codes (results : MeasurementSet) (sku sha now_ts : String)
    (out1 out2 : Option String) (hist : List MeasurementSet)
    (remote_runs : Option (List WorkflowRun)) (store : List GateRunRecord) :
    (main_flow none sku sha now_ts out1 hist remote_runs store = (1, none, store)) ∧
    ((main_flow (some results) sku sha now_ts out1 hist remote_runs store).1 = 0 ↔
      (should_pass_gate results sku hist remote_runs store).1 = true) ∧
    ((main_flow (some results) sku sha now_ts out1 hist remote_runs store).1 = 1 ↔
      (should_pass_gate results sku hist remote_runs store).1 = false) ∧
    (main_flow (some results) sku sha now_ts out1 hist remote_runs store =
      main_flow (some results) sku sha now_ts out2 hist remote_runs store) := by
  refine ⟨rfl, ?_, ?_, rfl⟩
  · by_cases h : (should_pass_gate results sku hist remote_runs store).1 <;>
      simp [ main_flow, run_gate, h]
  · by_cases h : (should_pass_gate results sku hist remote_runs store).1 <;>
      simp [ main_flow, run_gate, h]

/-- C9 evidence: the critical-violation failure string hard-codes the unit
label `µs` (script line 206) even for a metric whose key suffix is `_ms`: for
`scheduler.input_p99_ms` measured at 2.5 the emitted failure carries `µs`
although the suffix unit — which the report's own per-metric lines use — is
`ms`, contradicting the required verbatim unit preservation. -/
theorem C9_unit_label_bug :
    (CriticalFailure.violation "scheduler.input_p99_ms" (mkRat 5 2) 2 "µs"
        ∈ (check_critical_metrics exViolSet).2) ∧
    spec_suffix_unit "scheduler.input_p99_ms" = "ms" ∧
    metric_unit_label "scheduler.input_p99_ms" = "ms" ∧
    ( "µs" : String) ≠ "ms" := by
  refine ⟨by decide, by decide, by decide, by decide⟩
